import Mathlib

/-!
Verification development for the OpenAI coding-agent repository
(`main_gui.py`).  The Python tool functions (`read_file`, `list_files`,
`create_new_file`, `edit_file`) and the tool-dispatch / inference loop of
`CodeAgentApp.run_inference_thread` are shallowly embedded over an explicit
filesystem state.  Python strings are Lean `String`s (lists of characters);
Python's `str.replace`, `str.strip`, the `in` operator and `'/'.join`-style
path handling are re-implemented below with the same semantics.  The OS
filesystem is a finite map from resolved path-segment lists to file contents
plus a set of directories; `Path.resolve()` is modelled as the purely lexical
canonicalisation of `.` and `..` segments against the (already canonical)
working directory — symbolic links, which a shallow embedding cannot follow,
are outside the model.  The completion endpoint is an external collaborator
and is modelled as a script: the list of responses it returns to the
successive `chat.completions.create` calls of one user turn.
-/

namespace AgentSpec

/-- Characters removed by Python's `str.strip()` (whitespace). -/
def isPySpace (c : Char) : Bool :=
  c == ' ' || c == '\t' || c == '\n' || c == '\r' || c == '\x0b' || c == '\x0c'

/-- Python `s.strip()`: drop leading and trailing whitespace. -/
def pyStrip (s : String) : String :=
  ⟨((s.data.dropWhile isPySpace).reverse.dropWhile isPySpace).reverse⟩

/-- Python `s.replace(old, new)` for a non-empty `old = o :: os`: scan left to
right, replacing each leftmost occurrence and continuing after the
replacement.  The extra `Nat` is structural-recursion fuel: every step
shortens the scanned list, so starting the fuel at the list's length the
zero-fuel arm is reached only on the empty list, where it agrees with the
empty-list arm. -/
def replGo (o : Char) (os new : List Char) : List Char → Nat → List Char
  | l, 0 => l
  | [], _ => []
  | c :: rest, fuel + 1 =>
    if (o :: os).isPrefixOf (c :: rest) then
      new ++ replGo o os new (rest.drop os.length) fuel
    else
      c :: replGo o os new rest fuel

/-- Python `s.replace(old, new)` on character lists.  For `old = ""` Python
inserts `new` before every character and once at the end
(`"ab".replace("", "X") == "XaXbX"`). -/
def pyReplaceL (s old new : List Char) : List Char :=
  match old with
  | [] => new ++ (s.map (fun c => c :: new)).flatten
  | o :: os => replGo o os new s s.length

/-- Python `s.replace(old, new)` on strings. -/
def pyReplace (s old new : String) : String :=
  ⟨pyReplaceL s.data old.data new.data⟩

/-- Lines 156-157 of `main_gui.py`: the escape normalisation
`s.replace('\\n', '\n').replace('\\t', '\t').replace('\\"', '"')` applied to
`old_str` and `new_str` (a literal backslash-n/backslash-t/backslash-quote
two-character sequence becomes a real newline/tab/quote). -/
def processEscapes (s : String) : String :=
  pyReplace (pyReplace (pyReplace s "\\n" "\n") "\\t" "\t") "\\\"" "\""

/-- Python `needle in hay` (substring test). -/
def pyContains (hay needle : String) : Bool :=
  decide (needle.data <:+: hay.data)

/-- Python `len(s)` (number of characters). -/
def pyLen (s : String) : Nat := s.data.length

/-- Python `s[:n]` (first `n` characters). -/
def pyTake (s : String) (n : Nat) : String := ⟨s.data.take n⟩

/-- Split a path string at `'/'` separators, keeping the pieces. -/
def splitSegsAux : List Char → List Char → List String
  | acc, [] => [⟨acc.reverse⟩]
  | acc, c :: rest =>
    if c == '/' then ⟨acc.reverse⟩ :: splitSegsAux [] rest
    else splitSegsAux (c :: acc) rest

/-- The non-empty segments of a path string (`"a//b/"` gives `["a", "b"]`,
`""` and `"."`-only paths give their dot segments kept for `normSegs`). -/
def splitSegs (p : String) : List String :=
  (splitSegsAux [] p.data).filter (fun s => s ≠ "")

/-- Whether a path string is absolute (starts with `'/'`). -/
def isAbsPath (p : String) : Bool :=
  match p.data with
  | '/' :: _ => true
  | _ => false

/-- Lexical canonicalisation of `.` and `..` segments on top of a base
segment list, as `Path.resolve()` performs (without symbolic links):
`.` is dropped, `..` removes the last segment (staying at the root when
there is none), other segments are appended. -/
def normSegs : List String → List String → List String
  | acc, [] => acc
  | acc, seg :: rest =>
    if seg = "." then normSegs acc rest
    else if seg = ".." then normSegs acc.dropLast rest
    else normSegs (acc ++ [seg]) rest

/-- `Path(p).resolve()` against canonical working directory `cwd`: a relative
path is resolved on top of `cwd`, an absolute one from the root. -/
def resolve (cwd : List String) (p : String) : List String :=
  normSegs (if isAbsPath p then [] else cwd) (splitSegs p)

/-- `a.is_relative_to(b)` on resolved paths: `b` is a prefix of (or equal
to) `a`. -/
def isRelativeTo (p base : List String) : Bool :=
  base.isPrefixOf p

/-- The filesystem state: the canonical working directory, the regular files
(resolved segment list, textual content) and the directories. -/
structure FS where
  cwd : List String
  files : List (List String × String)
  dirs : List (List String)
deriving DecidableEq, Repr

/-- The content stored at resolved path `p`, when `p` is a regular file. -/
def lookupFile (fs : FS) (p : List String) : Option String :=
  (fs.files.find? (fun e => e.1 == p)).map (fun e => e.2)

/-- `Path.is_file()` on a resolved path. -/
def isFile (fs : FS) (p : List String) : Bool :=
  (lookupFile fs p).isSome

/-- `Path.is_dir()` on a resolved path. -/
def isDir (fs : FS) (p : List String) : Bool :=
  fs.dirs.contains p

/-- `Path.exists()` on a resolved path. -/
def pexists (fs : FS) (p : List String) : Bool :=
  isFile fs p || isDir fs p

/-- `Path.write_text(content)`: create or overwrite the regular file at `p`. -/
def writeFile (fs : FS) (p : List String) (content : String) : FS :=
  { fs with files := (p, content) :: fs.files.filter (fun e => !(e.1 == p)) }

/-- `path.mkdir(parents=True, exist_ok=True)`: make `parent` and all its
ancestors directories. -/
def mkdirParents (fs : FS) (parent : List String) : FS :=
  { fs with dirs := fs.dirs ++ parent.inits.filter (fun d => !(fs.dirs.contains d)) }

/-- Rendering of the absolute working directory (`Path.cwd()`) inside the
access-denied messages. -/
def renderAbs (segs : List String) : String :=
  "/" ++ String.intercalate "/" segs

/-- Line 51 of `main_gui.py`. -/
def accessDeniedReadMsg (cwd : List String) : String :=
  s!"Error: Access denied. Can only read files within the current project directory: {renderAbs cwd}"

/-- Line 78 of `main_gui.py`. -/
def accessDeniedListMsg (cwd : List String) : String :=
  s!"Error: Access denied. Can only list files within the current project directory: {renderAbs cwd}"

/-- Line 112 of `main_gui.py`. -/
def accessDeniedCreateMsg (cwd : List String) : String :=
  s!"Error: Access denied. Can only create files within the current project directory: {renderAbs cwd}"

/-- Line 139 of `main_gui.py`. -/
def accessDeniedEditMsg (cwd : List String) : String :=
  s!"Error: Access denied. Can only edit files within the current project directory: {renderAbs cwd}"

/-- `read_file` (lines 39-65 of `main_gui.py`): resolve, guard against paths
outside the working directory, require a regular file, read its text and
truncate past 10000 characters. -/
def read_file (fs : FS) (path : String) : String :=
  let file_path := resolve fs.cwd path
  if !(isRelativeTo file_path fs.cwd) then
    accessDeniedReadMsg fs.cwd
  else
    match lookupFile fs file_path with
    | none => s!"Error: Path '{path}' is not a file or does not exist."
    | some content =>
      if pyLen content > 10000 then
        pyTake content 10000 ++ "\n\n[... File truncated due to length ...]"
      else content

/-- The truncation marker appended by `list_files` at the 200-entry cap
(line 87 of `main_gui.py`). -/
def truncMarker : String := "[... Directory listing truncated due to size ...]"

/-- `str(Path(path) / name)`: `pathlib` drops `.` segments when building the
path object, so the rendered entry is the non-dot segments of the
caller-supplied `path` followed by the child's name. -/
def renderJoin (path name : String) : String :=
  let segs := (splitSegs path).filter (fun s => s ≠ ".")
  (if isAbsPath path then "/" else "") ++ String.intercalate "/" (segs ++ [name])

/-- One rendered `list_files` entry: the joined relative path, with a
trailing `/` for directories (lines 91-95 of `main_gui.py`). -/
def renderEntry (path name : String) (d : Bool) : String :=
  renderJoin path name ++ (if d then "/" else "")

/-- `base_path.iterdir()`: the immediate children of `base`, each with its
name and whether it is a directory, in the storage order of the filesystem
state (the OS iteration order is unspecified). -/
def childEntries (fs : FS) (base : List String) : List (String × Bool) :=
  (fs.dirs.filterMap (fun d =>
    if d ≠ [] ∧ d.dropLast = base then some (d.getLastD "", true) else none))
  ++ (fs.files.filterMap (fun e =>
    if e.1 ≠ [] ∧ e.1.dropLast = base then some (e.1.getLastD "", false) else none))

/-- The `for item in base_path.iterdir()` loop of `list_files`
(lines 85-96 of `main_gui.py`): render each child, and when the running
count reaches `max_items = 200` append the truncation marker and stop. -/
def listLoop (path : String) : List (String × Bool) → Nat → List String
  | [], _ => []
  | (name, d) :: rest, count =>
    if 200 ≤ count then [truncMarker]
    else renderEntry path name d :: listLoop path rest (count + 1)

/-- `list_files` up to serialisation (lines 67-98 of `main_gui.py`): resolve,
guard, require a directory, and build the capped entry list.  The Python
function returns either an error string or `json.dumps(items)`; the
`Except` value separates the two outcomes before serialisation. -/
def list_files_core (fs : FS) (path : String) : Except String (List String) :=
  let base_path := resolve fs.cwd path
  if !(isRelativeTo base_path fs.cwd) then
    Except.error (accessDeniedListMsg fs.cwd)
  else if !(isDir fs base_path) then
    Except.error s!"Error: Path '{path}' is not a directory or does not exist."
  else
    Except.ok (listLoop path (childEntries fs base_path) 0)

/-- `json.dumps` escaping of one character (the characters our model's
strings may hold). -/
def jsonEscapeChar (c : Char) : List Char :=
  if c == '"' then ['\\', '"']
  else if c == '\\' then ['\\', '\\']
  else if c == '\n' then ['\\', 'n']
  else if c == '\t' then ['\\', 't']
  else if c == '\r' then ['\\', 'r']
  else [c]

/-- `json.dumps` of one string. -/
def jsonStr (s : String) : String :=
  "\"" ++ ⟨(s.data.map jsonEscapeChar).flatten⟩ ++ "\""

/-- `json.dumps` of a list of strings. -/
def jsonDumps (items : List String) : String :=
  "[" ++ String.intercalate ", " (items.map jsonStr) ++ "]"

/-- `list_files` as the Python function returns it: the serialised item
array on success, the error string otherwise. -/
def list_files (fs : FS) (path : String) : String :=
  match list_files_core fs path with
  | Except.error e => e
  | Except.ok items => jsonDumps items

/-- `create_new_file` (lines 106-121 of `main_gui.py`): resolve, guard, make
the missing parent directories and write the content.  The two error
branches before the write model the `OSError`s Python raises — and the
`except Exception` clause turns into error strings — when an ancestor of
the target exists as a regular file or the target itself is a directory. -/
def create_new_file (fs : FS) (file_path_str content : String) : String × FS :=
  let file_path := resolve fs.cwd file_path_str
  if !(isRelativeTo file_path fs.cwd) then
    (accessDeniedCreateMsg fs.cwd, fs)
  else if file_path.dropLast.inits.any (fun q => isFile fs q) then
    (s!"Error creating file '{file_path_str}': a parent path is not a directory", fs)
  else if isDir fs file_path then
    (s!"Error creating file '{file_path_str}': is a directory", fs)
  else
    (s!"Successfully created file {file_path_str}",
      writeFile (mkdirParents fs file_path.dropLast) file_path content)

/-- Line 131 of `main_gui.py`. -/
def noOpEditMsg : String :=
  "Error: 'old_str' and 'new_str' must be different for editing."

/-- Line 133 of `main_gui.py`. -/
def emptyPathMsg : String := "Error: 'path' cannot be empty."

/-- Line 146 of `main_gui.py`. -/
def editFileNotFoundMsg (path : String) : String :=
  s!"Error: File not found at path '{path}' and 'old_str' is not empty (cannot replace in non-existent file)."

/-- Line 150 of `main_gui.py`. -/
def notAFileMsg (path : String) : String :=
  s!"Error: Path '{path}' exists but is not a file."

/-- Line 163 of `main_gui.py`: the near-miss hint naming the
whitespace-trimmed `old_str`. -/
def hintMsg (old_str : String) : String :=
  s!"Error: 'old_str' ('{old_str}') not found exactly in file. Did you mean '{pyStrip old_str}' (ignoring leading/trailing whitespace)?"

/-- Line 165 of `main_gui.py`. -/
def notFoundMsg (old_str path : String) : String :=
  s!"Error: 'old_str' ('{old_str}') not found exactly in file '{path}'. Replacement aborted."

/-- Line 175 of `main_gui.py`. -/
def warnMsg (old_str new_str path : String) : String :=
  s!"Warning: Replacing '{old_str}' with '{new_str}' resulted in no changes to the file '{path}'. Check if 'old_str' exists."

/-- `edit_file` (lines 123-187 of `main_gui.py`): reject `old_str == new_str`
and empty paths, resolve and guard the path, create the file via
`create_new_file` when it does not exist and `old_str` is empty, otherwise
read the content, normalise escapes in both argument strings, check the
normalised `old_str` occurs (with the trimmed-variant hint), replace all
occurrences, warn when nothing changed, and write the result back. -/
def edit_file (fs : FS) (path old_str new_str : String) : String × FS :=
  if old_str = new_str then (noOpEditMsg, fs)
  else if path = "" then (emptyPathMsg, fs)
  else
    let file_path := resolve fs.cwd path
    if !(isRelativeTo file_path fs.cwd) then
      (accessDeniedEditMsg fs.cwd, fs)
    else if !(pexists fs file_path) then
      if old_str = "" then create_new_file fs path new_str
      else (editFileNotFoundMsg path, fs)
    else if !(isFile fs file_path) then
      (notAFileMsg path, fs)
    else
      let original_content := (lookupFile fs file_path).getD ""
      let processed_old_str := processEscapes old_str
      let processed_new_str := processEscapes new_str
      if processed_old_str ≠ "" ∧ !(pyContains original_content processed_old_str) then
        (if pyContains original_content (pyStrip old_str) then hintMsg old_str
         else notFoundMsg old_str path, fs)
      else
        let new_content := pyReplace original_content processed_old_str processed_new_str
        if processed_old_str ≠ "" ∧ new_content = original_content then
          (warnMsg old_str new_str path, fs)
        else
          ("OK", writeFile fs file_path new_content)

/-- The argument payload of one tool request, as it stands after the
`json.loads` of line 403: either a shape matching one of the three tool
signatures, a shape matching no registered signature (Python's `TypeError`
branch, line 409), or undecodable JSON (line 406).  `list_files` takes an
optional path defaulting to `"."`. -/
inductive ToolArgs where
  | readFileArgs (path : String)
  | listFilesArgs (path : Option String)
  | editFileArgs (path old_str new_str : String)
  | mismatched (raw : String)
  | badJson (raw : String)
deriving DecidableEq, Repr

/-- One tool request of an assistant response: the endpoint-assigned id, the
tool name and the argument payload. -/
structure ToolCall where
  id : String
  name : String
  args : ToolArgs
deriving DecidableEq, Repr

/-- One completion-endpoint response: optional text and the ordered tool
requests (`response.choices[0].message`; an absent `tool_calls` is the
empty list). -/
structure Response where
  content : Option String
  toolCalls : List ToolCall
deriving DecidableEq, Repr

/-- One entry of the conversation store (`self.conversation_history`): a user
turn, an assistant response appended verbatim, or a tool-result entry
carrying the originating request id, the tool name and the result text
(lines 429-434 of `main_gui.py`). -/
inductive Msg where
  | user (text : String)
  | assistant (r : Response)
  | tool (tool_call_id name content : String)
deriving DecidableEq, Repr

/-- Whether a tool name is registered in `available_tools` (lines 192-196). -/
def knownTool (n : String) : Bool :=
  n == "read_file" || n == "list_files" || n == "edit_file"

/-- Dispatch of one tool call (lines 397-418 of `main_gui.py`): look the
name up in `available_tools`, report undecodable JSON, call the function on
the parsed arguments (a payload not matching the function's signature is
Python's `TypeError` branch), and pair the result string with the
filesystem it leaves behind (`read_file` and `list_files` never write). -/
def executeToolCall (fs : FS) (tc : ToolCall) : String × FS :=
  if !(knownTool tc.name) then
    (s!"Error: Tool '{tc.name}' not found.", fs)
  else
    match tc.args with
    | ToolArgs.badJson raw =>
      (s!"Error: Invalid JSON arguments received for {tc.name}: {raw}", fs)
    | ToolArgs.mismatched raw =>
      (s!"Error: Invalid arguments for tool {tc.name}: unexpected arguments. Args received: {raw}", fs)
    | ToolArgs.readFileArgs p =>
      if tc.name = "read_file" then (read_file fs p, fs)
      else (s!"Error: Invalid arguments for tool {tc.name}: unexpected arguments. Args received: {p}", fs)
    | ToolArgs.listFilesArgs p =>
      let path := p.getD "."
      if tc.name = "list_files" then (list_files fs path, fs)
      else (s!"Error: Invalid arguments for tool {tc.name}: unexpected arguments. Args received: {path}", fs)
    | ToolArgs.editFileArgs p o n =>
      if tc.name = "edit_file" then edit_file fs p o n
      else (s!"Error: Invalid arguments for tool {tc.name}: unexpected arguments. Args received: {p}", fs)

/-- The `for tool_call in tool_calls` loop (lines 389-434): execute each
request in order, threading the filesystem, and build the tool-result
entries appended to the conversation store (line 437). -/
def processToolCalls : FS → List ToolCall → List Msg × FS
  | fs, [] => ([], fs)
  | fs, tc :: rest =>
    let r := executeToolCall fs tc
    let tl := processToolCalls r.2 rest
    (Msg.tool tc.id tc.name r.1 :: tl.1, tl.2)

/-- The result strings the tool loop produces, in request order. -/
def toolOutputs : FS → List ToolCall → List String
  | _, [] => []
  | fs, tc :: rest =>
    (executeToolCall fs tc).1 :: toolOutputs (executeToolCall fs tc).2 rest

/-- `CodeAgentApp.run_inference_thread` (lines 364-456) over a scripted
endpoint: each element of `script` is the response one
`chat.completions.create` call returns.  The assistant response is appended
to the history first (line 381); with tool calls present the tool-result
entries follow and the method recurses (line 441); without, the turn
completes.  The returned number counts the endpoint calls issued; an
exhausted script models a turn aborted by a transport failure before a
further call could return. -/
def runInference : FS → List Msg → List Response → List Msg × FS × Nat
  | fs, hist, [] => (hist, fs, 0)
  | fs, hist, r :: rest =>
    let hist1 := hist ++ [Msg.assistant r]
    if r.toolCalls.isEmpty then (hist1, fs, 1)
    else
      let pr := processToolCalls fs r.toolCalls
      let res := runInference pr.2 (hist1 ++ pr.1) rest
      (res.1, res.2.1, res.2.2 + 1)

/-- The number of responses of a script that carry at least one tool
request (the tool-call rounds of the turn it drives). -/
def toolRounds (script : List Response) : Nat :=
  (script.filter (fun r => !(r.toolCalls.isEmpty))).length

/-! Helper lemmas. -/

theorem isRelativeTo_refl (l : List String) : isRelativeTo l l = true := by
  simp [isRelativeTo, List.isPrefixOf_iff_prefix]

theorem resolve_empty (cwd : List String) : resolve cwd "" = cwd := rfl

theorem lookupFile_writeFile (fs : FS) (p : List String) (c : String) :
    lookupFile (writeFile fs p c) p = some c := by
  simp [lookupFile, writeFile, List.find?]

theorem writeFile_cwd (fs : FS) (p : List String) (c : String) :
    (writeFile fs p c).cwd = fs.cwd := rfl

/-- Reading back a file just written inside the workspace returns its exact
content when it is within the 10000-character truncation cap. -/
theorem read_file_after_write (fs : FS) (path c' : String)
    (hin : isRelativeTo (resolve fs.cwd path) fs.cwd = true)
    (hlen : pyLen c' ≤ 10000) :
    read_file (writeFile fs (resolve fs.cwd path) c') path = c' := by
  have hnl : ¬ (10000 < pyLen c') := by omega
  simp [read_file, writeFile_cwd, hin, lookupFile_writeFile, hnl]

theorem replGo_self (o : Char) (os : List Char) (fuel : Nat) (s : List Char) :
    replGo o os (o :: os) s fuel = s := by
  induction fuel generalizing s with
  | zero => cases s <;> rfl
  | succ fuel ih =>
    cases s with
    | nil => rfl
    | cons c rest =>
      rw [replGo]
      split
      · next h =>
        rw [ List.isPrefixOf_iff_prefix] at h
        have h2 := (List.prefix_iff_eq_append).mp h
        simp only [List.length_cons, List.drop_succ_cons] at h2
        rw [ih, h2]
      · rw [ih]

theorem pyReplaceL_nil_nil (s : List Char) : pyReplaceL s [] [] = s := by
  induction s with
  | nil => rfl
  | cons c rest ih =>
    simp only [pyReplaceL, List.map_cons, List.flatten_cons, List.nil_append] at ih ⊢
    simp [ih]

/-- Replacing a pattern by itself changes nothing (`s.replace(o, o) == s`). -/
theorem pyReplace_self (s old : String) : pyReplace s old old = s := by
  obtain ⟨sd⟩ := s
  obtain ⟨od⟩ := old
  cases od with
  | nil => simp [pyReplace, pyReplaceL_nil_nil]
  | cons o os => simp [pyReplace, pyReplaceL, replGo_self]

theorem pyReplaceL_ne_nil (s old new : List Char) (hs : s ≠ []) (hn : new ≠ []) :
    pyReplaceL s old new ≠ [] := by
  cases old with
  | nil => simp [pyReplaceL, hn]
  | cons o os =>
    cases s with
    | nil => exact absurd rfl hs
    | cons c rest =>
      simp only [pyReplaceL, List.length_cons, replGo]
      split
      · simp [hn]
      · simp

/-- `s.replace(old, new)` with `s` and `new` non-empty is non-empty. -/
theorem pyReplace_ne_empty (s old new : String) (hs : s ≠ "") (hn : new ≠ "") :
    pyReplace s old new ≠ "" := by
  intro h
  have hs' : s.data ≠ [] := fun hd => hs (String.ext hd)
  have hn' : new.data ≠ [] := fun hd => hn (String.ext hd)
  exact pyReplaceL_ne_nil s.data old.data new.data hs' hn' (congrArg String.data h)

/-- Escape normalisation maps non-empty strings to non-empty strings, hence
the `processed_old_str != ""` guard of `edit_file` is exactly the
non-emptiness of the original `old_str`. -/
theorem processEscapes_ne_empty (s : String) (h : s ≠ "") : processEscapes s ≠ "" := by
  unfold processEscapes
  apply pyReplace_ne_empty
  · apply pyReplace_ne_empty
    · exact pyReplace_ne_empty s "\\n" "\n" h (by decide)
    · decide
  · decide

theorem processEscapes_eq_empty (s : String) (h : processEscapes s = "") : s = "" := by
  by_contra hs
  exact processEscapes_ne_empty s hs h

/-! Claim theorems. -/

/-- C6: for every filesystem state, path and argument string, calling
`edit_file` with `old_str = new_str` returns the NoOpEdit error and leaves
the filesystem untouched, before any path resolution or filesystem test. -/
theorem editFile_noop_always (fs : FS) (path s : String) :
    edit_file fs path s s = (noOpEditMsg, fs) := by
  simp [edit_file]

/-- C1 counterexample: the path `../etc/passwd` resolves outside the working
directory `/w`, yet `edit_file` on it with equal argument strings returns
the NoOpEdit error, not an AccessDenied error — the `old_str == new_str`
test precedes the containment guard.  (The filesystem is still untouched.) -/
theorem editFile_outside_noop_counterexample :
    isRelativeTo (resolve ["w"] "../etc/passwd") ["w"] = false ∧
    (edit_file ⟨["w"], [], [["w"]]⟩ "../etc/passwd" "a" "a").1 = noOpEditMsg ∧
    (edit_file ⟨["w"], [], [["w"]]⟩ "../etc/passwd" "a" "a").2 = ⟨["w"], [], [["w"]]⟩ ∧
    pyContains (edit_file ⟨["w"], [], [["w"]]⟩ "../etc/passwd" "a" "a").1 "Access denied" = false := by
  refine ⟨rfl, rfl, rfl, by decide⟩

/-- C1 amended: for every path resolving outside the working-directory tree,
`read_file` and `list_files` return their AccessDenied error, and
`edit_file` returns its AccessDenied error whenever `old_str ≠ new_str`
(otherwise the NoOpEdit check fires first); in every case no filesystem
mutation is performed. -/
theorem tools_outside_access_denied (fs : FS) (p : String)
    (h : isRelativeTo (resolve fs.cwd p) fs.cwd = false) :
    read_file fs p = accessDeniedReadMsg fs.cwd ∧
    list_files_core fs p = Except.error (accessDeniedListMsg fs.cwd) ∧
    list_files fs p = accessDeniedListMsg fs.cwd ∧
    ∀ o n, o ≠ n → edit_file fs p o n = (accessDeniedEditMsg fs.cwd, fs) := by
  have hp : p ≠ "" := by
    intro hp
    rw [hp, resolve_empty, isRelativeTo_refl] at h
    exact Bool.true_eq_false.mp h
  refine ⟨?_, ?_, ?_, ?_⟩
  · simp [read_file, h]
  · simp [list_files_core, h]
  · simp [list_files, list_files_core, h]
  · intro o n hon
    simp [edit_file, h, hon, hp]

/-- C1 amended, witness at the path `../etc/passwd` outside `/w`. -/
theorem tools_outside_access_denied_witness :
    isRelativeTo (resolve (FS.mk ["w"] [] [["w"]]).cwd "../etc/passwd") (FS.mk ["w"] [] [["w"]]).cwd = false ∧
    (read_file ⟨["w"], [], [["w"]]⟩ "../etc/passwd" = accessDeniedReadMsg ["w"] ∧
     list_files_core ⟨["w"], [], [["w"]]⟩ "../etc/passwd" = Except.error (accessDeniedListMsg ["w"]) ∧
     list_files ⟨["w"], [], [["w"]]⟩ "../etc/passwd" = accessDeniedListMsg ["w"] ∧
     ∀ o n, o ≠ n → edit_file ⟨["w"], [], [["w"]]⟩ "../etc/passwd" o n = (accessDeniedEditMsg ["w"], ⟨["w"], [], [["w"]]⟩)) :=
  ⟨rfl, tools_outside_access_denied ⟨["w"], [], [["w"]]⟩ "../etc/passwd" rfl⟩

/-- C10: the no-op equality check of `edit_file` compares the raw argument
strings, so for `old_str ≠ new_str` with equal escape-normalised forms, on
an existing file containing that normalised form, both the equality check
and the not-found check pass, the replacement leaves the content unchanged,
the file is not rewritten, and the no-change warning is returned. -/
theorem editFile_normalised_noop_warning (fs : FS) (path old_str new_str c : String)
    (hne : old_str ≠ new_str)
    (hproc : processEscapes old_str = processEscapes new_str)
    (hpath : path ≠ "")
    (hin : isRelativeTo (resolve fs.cwd path) fs.cwd = true)
    (hfile : lookupFile fs (resolve fs.cwd path) = some c)
    (hcont : pyContains c (processEscapes old_str) = true) :
    edit_file fs path old_str new_str = (warnMsg old_str new_str path, fs) := by
  have hpo : processEscapes old_str ≠ "" := by
    intro h0
    have h1 : old_str = "" := processEscapes_eq_empty old_str h0
    have h2 : new_str = "" := processEscapes_eq_empty new_str (hproc ▸ h0)
    exact hne (h1.trans h2.symm)
  unfold edit_file
  simp [hne, hpath, hin, pexists, isFile, hfile, hcont, ← hproc, pyReplace_self, hpo]

/-- C10 witness: `old_str` a literal backslash-n, `new_str` a real newline,
on a file whose content holds a real newline. -/
theorem editFile_normalised_noop_warning_witness :
    ("\\n" : String) ≠ "\n" ∧
    processEscapes "\\n" = processEscapes "\n" ∧
    ("f" : String) ≠ "" ∧
    isRelativeTo (resolve (FS.mk ["w"] [(["w", "f"], "a\nb")] [["w"]]).cwd "f") ["w"] = true ∧
    lookupFile ⟨["w"], [(["w", "f"], "a\nb")], [["w"]]⟩ (resolve ["w"] "f") = some "a\nb" ∧
    pyContains "a\nb" (processEscapes "\\n") = true ∧
    edit_file ⟨["w"], [(["w", "f"], "a\nb")], [["w"]]⟩ "f" "\\n" "\n" =
      (warnMsg "\\n" "\n" "f", ⟨["w"], [(["w", "f"], "a\nb")], [["w"]]⟩) :=
  ⟨by decide, by decide, by decide, rfl, rfl, by decide,
    editFile_normalised_noop_warning ⟨["w"], [(["w", "f"], "a\nb")], [["w"]]⟩ "f" "\\n" "\n" "a\nb"
      (by decide) (by decide) (by decide) rfl rfl (by decide)⟩

/-- The near-miss hint message contains the whitespace-trimmed `old_str`
verbatim. -/
theorem hintMsg_surfaces_strip (o : String) :
    pyContains (hintMsg o) (pyStrip o) = true := by
  have hmsg : hintMsg o =
      "Error: 'old_str' ('" ++ o ++ "') not found exactly in file. Did you mean '" ++
        pyStrip o ++ "' (ignoring leading/trailing whitespace)?" := rfl
  rw [hmsg]
  simp only [pyContains, decide_eq_true_eq, String.data_append]
  exact ⟨("Error: 'old_str' ('" ++ o ++ "') not found exactly in file. Did you mean '").data,
    ("' (ignoring leading/trailing whitespace)?").data, by simp [String.data_append]⟩

/-- C7: on an existing file whose content does not contain the
escape-normalised non-empty `old_str`, `edit_file` fails and leaves the
filesystem unchanged; the failure message is the near-miss hint naming the
whitespace-trimmed `old_str` when that trimmed variant occurs in the
content (and the message indeed contains the trimmed variant), and the
plain PatternNotFound message otherwise. -/
theorem editFile_pattern_not_found (fs : FS) (path old_str new_str c : String)
    (hne : old_str ≠ new_str) (hpath : path ≠ "")
    (hin : isRelativeTo (resolve fs.cwd path) fs.cwd = true)
    (hfile : lookupFile fs (resolve fs.cwd path) = some c)
    (hold : old_str ≠ "")
    (hnc : pyContains c (processEscapes old_str) = false) :
    (edit_file fs path old_str new_str).2 = fs ∧
    (pyContains c (pyStrip old_str) = true →
        (edit_file fs path old_str new_str).1 = hintMsg old_str ∧
        pyContains (hintMsg old_str) (pyStrip old_str) = true) ∧
    (pyContains c (pyStrip old_str) = false →
        (edit_file fs path old_str new_str).1 = notFoundMsg old_str path) := by
  have hpo := processEscapes_ne_empty old_str hold
  unfold edit_file
  by_cases hs : pyContains c (pyStrip old_str) = true
  · simp [hne, hpath, hin, pexists, isFile, hfile, hpo, hnc, hs, hintMsg_surfaces_strip]
  · simp [hne, hpath, hin, pexists, isFile, hfile, hpo, hnc, hs]

/-- C7 witness: file `f` holds `hello`, `old_str` is `" hello "` (trimmed
variant present in the content). -/
theorem editFile_pattern_not_found_witness :
    (" hello " : String) ≠ "x" ∧
    ("f" : String) ≠ "" ∧
    isRelativeTo (resolve ["w"] "f") ["w"] = true ∧
    lookupFile ⟨["w"], [(["w", "f"], "hello")], [["w"]]⟩ (resolve ["w"] "f") = some "hello" ∧
    (" hello " : String) ≠ "" ∧
    pyContains "hello" (processEscapes " hello ") = false ∧
    ((edit_file ⟨["w"], [(["w", "f"], "hello")], [["w"]]⟩ "f" " hello " "x").2 =
        ⟨["w"], [(["w", "f"], "hello")], [["w"]]⟩ ∧
      (pyContains "hello" (pyStrip " hello ") = true →
          (edit_file ⟨["w"], [(["w", "f"], "hello")], [["w"]]⟩ "f" " hello " "x").1 = hintMsg " hello " ∧
          pyContains (hintMsg " hello ") (pyStrip " hello ") = true) ∧
      (pyContains "hello" (pyStrip " hello ") = false →
          (edit_file ⟨["w"], [(["w", "f"], "hello")], [["w"]]⟩ "f" " hello " "x").1 = notFoundMsg " hello " "f")) :=
  ⟨by decide, by decide, rfl, rfl, by decide, by decide,
    editFile_pattern_not_found ⟨["w"], [(["w", "f"], "hello")], [["w"]]⟩ "f" " hello " "x" "hello"
      (by decide) (by decide) rfl rfl (by decide) (by decide)⟩

/-- C9 counterexample: on the file `f` with content `a`, the call
`edit_file f "" "\n"` (a literal backslash-n `new_str`) succeeds but writes
the escape-NORMALISED `new_str` interleaved with the content — a real
newline before and after the `a` — not the raw `new_str` the claim
predicts. -/
theorem editFile_empty_old_counterexample :
    (edit_file ⟨["w"], [(["w", "f"], "a")], [["w"]]⟩ "f" "" "\\n").1 = "OK" ∧
    lookupFile (edit_file ⟨["w"], [(["w", "f"], "a")], [["w"]]⟩ "f" "" "\\n").2 ["w", "f"] =
      some "\na\n" ∧
    ("\na\n" : String) ≠ "\\na\\n" := by
  refine ⟨rfl, rfl, by decide⟩

/-- C9 amended: for an existing file with non-empty content and
`edit_file(path, "", newStr)` with `newStr` non-empty, the presence and
no-change guards are skipped (they require a non-empty normalised
`old_str`), the empty-pattern replacement inserts the escape-NORMALISED
`newStr` before every character of the content and once at its end, the
interleaved result is written back, and the call returns the success
marker `OK`. -/
theorem editFile_empty_old_interleaves (fs : FS) (path new_str c : String)
    (hpath : path ≠ "") (hnew : new_str ≠ "") (_hc : c ≠ "")
    (hin : isRelativeTo (resolve fs.cwd path) fs.cwd = true)
    (hfile : lookupFile fs (resolve fs.cwd path) = some c) :
    edit_file fs path "" new_str =
      ("OK", writeFile fs (resolve fs.cwd path) (pyReplace c "" (processEscapes new_str))) ∧
    (pyReplace c "" (processEscapes new_str)).data =
      (processEscapes new_str).data ++
        (c.data.map (fun ch => ch :: (processEscapes new_str).data)).flatten := by
  constructor
  · have hne : ("" : String) ≠ new_str := fun h => hnew h.symm
    unfold edit_file
    simp [hne, hpath, hin, pexists, isFile, hfile, show processEscapes "" = "" from rfl]
  · rfl

/-- C9 amended, witness: inserting normalised `"\n"` through content `"a"`
gives `"\na\n"`. -/
theorem editFile_empty_old_interleaves_witness :
    ("f" : String) ≠ "" ∧ ("\\n" : String) ≠ "" ∧ ("a" : String) ≠ "" ∧
    isRelativeTo (resolve ["w"] "f") ["w"] = true ∧
    lookupFile ⟨["w"], [(["w", "f"], "a")], [["w"]]⟩ (resolve ["w"] "f") = some "a" ∧
    (edit_file ⟨["w"], [(["w", "f"], "a")], [["w"]]⟩ "f" "" "\\n" =
        ("OK", writeFile ⟨["w"], [(["w", "f"], "a")], [["w"]]⟩ (resolve ["w"] "f")
          (pyReplace "a" "" (processEscapes "\\n"))) ∧
      (pyReplace "a" "" (processEscapes "\\n")).data =
        (processEscapes "\\n").data ++
          (("a" : String).data.map (fun ch => ch :: (processEscapes "\\n").data)).flatten) :=
  ⟨by decide, by decide, by decide, rfl, rfl,
    editFile_empty_old_interleaves ⟨["w"], [(["w", "f"], "a")], [["w"]]⟩ "f" "\\n" "a"
      (by decide) (by decide) (by decide) rfl rfl⟩

theorem mkdirParents_isDir (fs : FS) (parent q : List String) (hq : q ∈ parent.inits) :
    isDir (mkdirParents fs parent) q = true := by
  simp only [isDir, mkdirParents]
  by_cases h : q ∈ fs.dirs
  · simp [List.contains, List.elem_eq_mem, h]
  · simp [List.contains, List.elem_eq_mem, List.mem_filter, h, hq]

/-- C5 counterexample: on a non-existent path `g` with `newStr = ""`, the
claim predicts creation of an empty file, but the `old_str == new_str`
check fires first ("" equals ""): `edit_file g "" ""` returns the NoOpEdit
error and creates nothing. -/
theorem editFile_create_empty_new_counterexample :
    pexists ⟨["w"], [], [["w"]]⟩ (resolve ["w"] "g") = false ∧
    edit_file ⟨["w"], [], [["w"]]⟩ "g" "" "" = (noOpEditMsg, ⟨["w"], [], [["w"]]⟩) ∧
    lookupFile (edit_file ⟨["w"], [], [["w"]]⟩ "g" "" "").2 (resolve ["w"] "g") = none ∧
    noOpEditMsg ≠ "Successfully created file g" := by
  refine ⟨rfl, rfl, rfl, by decide⟩

/-- C5 amended: for a non-existent path inside the workspace whose missing
ancestors are not blocked by an existing regular file, `edit_file` with
empty `old_str` and NON-empty `newStr` creates the file with exact content
`newStr` and makes every missing parent directory; with non-empty
`old_str` (different from `newStr`) it fails with the FileNotFound error
and changes nothing. -/
theorem editFile_create_on_missing (fs : FS) (path new_str : String)
    (hpath : path ≠ "")
    (hin : isRelativeTo (resolve fs.cwd path) fs.cwd = true)
    (hmiss : pexists fs (resolve fs.cwd path) = false)
    (hanc : (resolve fs.cwd path).dropLast.inits.any (fun q => isFile fs q) = false) :
    (new_str ≠ "" →
      edit_file fs path "" new_str =
        (s!"Successfully created file {path}",
          writeFile (mkdirParents fs (resolve fs.cwd path).dropLast) (resolve fs.cwd path) new_str) ∧
      lookupFile (edit_file fs path "" new_str).2 (resolve fs.cwd path) = some new_str ∧
      ∀ q ∈ (resolve fs.cwd path).dropLast.inits, isDir (edit_file fs path "" new_str).2 q = true) ∧
    (∀ old_str, old_str ≠ "" → old_str ≠ new_str →
      edit_file fs path old_str new_str = (editFileNotFoundMsg path, fs)) := by
  have hdir : isDir fs (resolve fs.cwd path) = false := by
    simp only [pexists, Bool.or_eq_false_iff] at hmiss
    exact hmiss.2
  constructor
  · intro hnew
    have hne : ("" : String) ≠ new_str := fun h => hnew h.symm
    have hedit : edit_file fs path "" new_str =
        (s!"Successfully created file {path}",
          writeFile (mkdirParents fs (resolve fs.cwd path).dropLast) (resolve fs.cwd path) new_str) := by
      unfold edit_file create_new_file
      simp [hne, hpath, hin, hmiss, hanc, hdir]
    refine ⟨hedit, ?_, ?_⟩
    · rw [hedit]
      exact lookupFile_writeFile _ _ _
    · intro q hq
      rw [hedit]
      exact mkdirParents_isDir fs _ q hq
  · intro old_str hold hon
    unfold edit_file
    simp [hon, hpath, hin, hmiss, hold]

/-- C5 amended, witness: creating `sub/new.txt` with content `hi` under the
workspace `/w`. -/
theorem editFile_create_on_missing_witness :
    ("sub/new.txt" : String) ≠ "" ∧
    isRelativeTo (resolve ["w"] "sub/new.txt") ["w"] = true ∧
    pexists ⟨["w"], [], [["w"]]⟩ (resolve ["w"] "sub/new.txt") = false ∧
    (resolve ["w"] "sub/new.txt").dropLast.inits.any
      (fun q => isFile ⟨["w"], [], [["w"]]⟩ q) = false ∧
    (("hi" : String) ≠ "" →
      edit_file ⟨["w"], [], [["w"]]⟩ "sub/new.txt" "" "hi" =
        ("Successfully created file sub/new.txt",
          writeFile (mkdirParents ⟨["w"], [], [["w"]]⟩ (resolve ["w"] "sub/new.txt").dropLast)
            (resolve ["w"] "sub/new.txt") "hi") ∧
      lookupFile (edit_file ⟨["w"], [], [["w"]]⟩ "sub/new.txt" "" "hi").2
        (resolve ["w"] "sub/new.txt") = some "hi" ∧
      ∀ q ∈ (resolve ["w"] "sub/new.txt").dropLast.inits,
        isDir (edit_file ⟨["w"], [], [["w"]]⟩ "sub/new.txt" "" "hi").2 q = true) ∧
    (∀ old_str, old_str ≠ "" → old_str ≠ "hi" →
      edit_file ⟨["w"], [], [["w"]]⟩ "sub/new.txt" old_str "hi" =
        (editFileNotFoundMsg "sub/new.txt", ⟨["w"], [], [["w"]]⟩)) :=
  ⟨by decide, rfl, rfl, rfl,
    (editFile_create_on_missing ⟨["w"], [], [["w"]]⟩ "sub/new.txt" "hi"
      (by decide) rfl rfl rfl).1,
    (editFile_create_on_missing ⟨["w"], [], [["w"]]⟩ "sub/new.txt" "hi"
      (by decide) rfl rfl rfl).2⟩

/-- C4 counterexample: the file `f.txt` contains the two-character sequence
backslash-n, and `old_str` is exactly that sequence — found verbatim in the
content.  Yet `edit_file` escape-normalises `old_str` to a real newline,
fails to find it, and returns the near-miss hint without replacing
anything, contradicting the claim that every found `old_str` is replaced. -/
theorem editFile_replace_counterexample :
    pyContains "x\\ny" "\\n" = true ∧
    (edit_file ⟨["w"], [(["w", "f.txt"], "x\\ny")], [["w"]]⟩ "f.txt" "\\n" "Z").1 = hintMsg "\\n" ∧
    (edit_file ⟨["w"], [(["w", "f.txt"], "x\\ny")], [["w"]]⟩ "f.txt" "\\n" "Z").2 =
      ⟨["w"], [(["w", "f.txt"], "x\\ny")], [["w"]]⟩ ∧
    hintMsg "\\n" ≠ "OK" := by
  refine ⟨by decide, rfl, rfl, by decide⟩

/-- C4 amended: for an existing file whose content contains the
escape-NORMALISED non-empty `old_str`, when the global replacement by the
escape-normalised `new_str` changes the content, `edit_file` writes the
fully replaced content back and returns `OK`, and a subsequent `read_file`
returns exactly that content, provided it does not exceed the
10000-character truncation cap. -/
theorem editFile_global_replace (fs : FS) (path old_str new_str c : String)
    (hne : old_str ≠ new_str) (hpath : path ≠ "")
    (hin : isRelativeTo (resolve fs.cwd path) fs.cwd = true)
    (hfile : lookupFile fs (resolve fs.cwd path) = some c)
    (hold : old_str ≠ "")
    (hcont : pyContains c (processEscapes old_str) = true)
    (hchanged : pyReplace c (processEscapes old_str) (processEscapes new_str) ≠ c)
    (hlen : pyLen (pyReplace c (processEscapes old_str) (processEscapes new_str)) ≤ 10000) :
    edit_file fs path old_str new_str =
      ("OK", writeFile fs (resolve fs.cwd path)
        (pyReplace c (processEscapes old_str) (processEscapes new_str))) ∧
    read_file (edit_file fs path old_str new_str).2 path =
      pyReplace c (processEscapes old_str) (processEscapes new_str) := by
  have hpo := processEscapes_ne_empty old_str hold
  have hedit : edit_file fs path old_str new_str =
      ("OK", writeFile fs (resolve fs.cwd path)
        (pyReplace c (processEscapes old_str) (processEscapes new_str))) := by
    unfold edit_file
    simp [hne, hpath, hin, pexists, isFile, hfile, hpo, hcont, hchanged]
  refine ⟨hedit, ?_⟩
  rw [hedit]
  exact read_file_after_write fs path _ hin hlen

/-- C4 amended, witness: replacing both occurrences of `hello` by `hi` in
`hello hello` and reading back `hi hi`. -/
theorem editFile_global_replace_witness :
    ("hello" : String) ≠ "hi" ∧
    ("a.txt" : String) ≠ "" ∧
    isRelativeTo (resolve ["w"] "a.txt") ["w"] = true ∧
    lookupFile ⟨["w"], [(["w", "a.txt"], "hello hello")], [["w"]]⟩ (resolve ["w"] "a.txt") =
      some "hello hello" ∧
    ("hello" : String) ≠ "" ∧
    pyContains "hello hello" (processEscapes "hello") = true ∧
    pyReplace "hello hello" (processEscapes "hello") (processEscapes "hi") ≠ "hello hello" ∧
    pyLen (pyReplace "hello hello" (processEscapes "hello") (processEscapes "hi")) ≤ 10000 ∧
    (edit_file ⟨["w"], [(["w", "a.txt"], "hello hello")], [["w"]]⟩ "a.txt" "hello" "hi" =
        ("OK", writeFile ⟨["w"], [(["w", "a.txt"], "hello hello")], [["w"]]⟩ (resolve ["w"] "a.txt")
          (pyReplace "hello hello" (processEscapes "hello") (processEscapes "hi"))) ∧
      read_file (edit_file ⟨["w"], [(["w", "a.txt"], "hello hello")], [["w"]]⟩ "a.txt" "hello" "hi").2
          "a.txt" =
        pyReplace "hello hello" (processEscapes "hello") (processEscapes "hi")) :=
  ⟨by decide, by decide, rfl, rfl, by decide, by decide, by decide, by decide,
    editFile_global_replace ⟨["w"], [(["w", "a.txt"], "hello hello")], [["w"]]⟩ "a.txt"
      "hello" "hi" "hello hello" (by decide) (by decide) rfl rfl (by decide) (by decide)
      (by decide) (by decide)⟩

theorem listLoop_no_trunc (path : String) (l : List (String × Bool)) (c : Nat)
    (h : c + l.length ≤ 200) :
    listLoop path l c = l.map (fun e => renderEntry path e.1 e.2) := by
  induction l generalizing c with
  | nil => rfl
  | cons e rest ih =>
    obtain ⟨name, d⟩ := e
    rw [listLoop, if_neg (by simp at h; omega),
      ih (c + 1) (by simp at h ⊢; omega)]
    rfl

theorem listLoop_trunc (path : String) (l : List (String × Bool)) (c : Nat)
    (hc : c ≤ 200) (h : 200 < c + l.length) :
    listLoop path l c =
      (l.take (200 - c)).map (fun e => renderEntry path e.1 e.2) ++ [truncMarker] := by
  induction l generalizing c with
  | nil => simp at h; omega
  | cons e rest ih =>
    obtain ⟨name, d⟩ := e
    by_cases h200 : 200 ≤ c
    · have hc200 : c = 200 := by omega
      subst hc200
      rw [listLoop, if_pos (by omega)]
      simp
    · rw [listLoop, if_neg h200,
        ih (c + 1) (by omega) (by simp at h ⊢; omega)]
      have hsub : 200 - c = (200 - (c + 1)) + 1 := by omega
      rw [hsub]
      simp

/-- C8: on a directory inside the workspace, `list_files` succeeds with an
item list of at most 201 strings: all children rendered when there are at
most 200 of them, and exactly the first 200 rendered children followed by
the truncation marker — no further entries — when there are more. -/
theorem listFiles_cap (fs : FS) (path : String)
    (hin : isRelativeTo (resolve fs.cwd path) fs.cwd = true)
    (hdir : isDir fs (resolve fs.cwd path) = true) :
    ∃ items, list_files_core fs path = Except.ok items ∧
      items.length ≤ 201 ∧
      ((childEntries fs (resolve fs.cwd path)).length ≤ 200 →
        items = (childEntries fs (resolve fs.cwd path)).map
            (fun e => renderEntry path e.1 e.2) ∧
        items.length ≤ 200) ∧
      (200 < (childEntries fs (resolve fs.cwd path)).length →
        items = ((childEntries fs (resolve fs.cwd path)).take 200).map
            (fun e => renderEntry path e.1 e.2) ++ [truncMarker] ∧
        items.length = 201) := by
  refine ⟨listLoop path (childEntries fs (resolve fs.cwd path)) 0, ?_, ?_, ?_, ?_⟩
  · unfold list_files_core
    simp [hin, hdir]
  · by_cases hn : (childEntries fs (resolve fs.cwd path)).length ≤ 200
    · rw [listLoop_no_trunc path _ 0 (by omega)]
      simp
      omega
    · rw [listLoop_trunc path _ 0 (by omega) (by omega)]
      simp
  · intro hn
    rw [listLoop_no_trunc path _ 0 (by omega)]
    simp
    omega
  · intro hn
    rw [listLoop_trunc path _ 0 (by omega) (by omega)]
    simp
    omega

/-- C8 witness at a two-child directory. -/
theorem listFiles_cap_witness :
    isRelativeTo (resolve ["w"] ".") ["w"] = true ∧
    isDir ⟨["w"], [(["w", "x.py"], "")], [["w"], ["w", "sub"]]⟩ (resolve ["w"] ".") = true ∧
    ∃ items,
      list_files_core ⟨["w"], [(["w", "x.py"], "")], [["w"], ["w", "sub"]]⟩ "." = Except.ok items ∧
      items.length ≤ 201 ∧
      ((childEntries ⟨["w"], [(["w", "x.py"], "")], [["w"], ["w", "sub"]]⟩ (resolve ["w"] ".")).length ≤ 200 →
        items = (childEntries ⟨["w"], [(["w", "x.py"], "")], [["w"], ["w", "sub"]]⟩ (resolve ["w"] ".")).map
            (fun e => renderEntry "." e.1 e.2) ∧
        items.length ≤ 200) ∧
      (200 < (childEntries ⟨["w"], [(["w", "x.py"], "")], [["w"], ["w", "sub"]]⟩ (resolve ["w"] ".")).length →
        items = ((childEntries ⟨["w"], [(["w", "x.py"], "")], [["w"], ["w", "sub"]]⟩ (resolve ["w"] ".")).take 200).map
            (fun e => renderEntry "." e.1 e.2) ++ [truncMarker] ∧
        items.length = 201) :=
  ⟨rfl, rfl,
    listFiles_cap ⟨["w"], [(["w", "x.py"], "")], [["w"], ["w", "sub"]]⟩ "." rfl rfl⟩

theorem toolOutputs_length (tcs : List ToolCall) (fs : FS) :
    (toolOutputs fs tcs).length = tcs.length := by
  induction tcs generalizing fs with
  | nil => rfl
  | cons tc rest ih => simp [toolOutputs, ih]

theorem processToolCalls_spec (tcs : List ToolCall) (fs : FS) :
    (processToolCalls fs tcs).1 =
      List.zipWith (fun tc out => Msg.tool tc.id tc.name out) tcs (toolOutputs fs tcs) := by
  induction tcs generalizing fs with
  | nil => rfl
  | cons tc rest ih => simp [processToolCalls, toolOutputs, ih]

theorem processToolCalls_length (tcs : List ToolCall) (fs : FS) :
    (processToolCalls fs tcs).1.length = tcs.length := by
  rw [processToolCalls_spec]
  simp [toolOutputs_length]

/-- C3: when the assistant response carries `N ≥ 1` tool requests, the
inference step recurses — i.e. issues the next completion call — on the
history extended by the assistant message followed by exactly `N`
tool-result entries, and those entries are the requests zipped in order
with their results, each entry carrying its originating request's id and
the tool's name. -/
theorem toolResults_keyed_in_order (fs : FS) (hist : List Msg) (r : Response)
    (rest : List Response) (h : r.toolCalls ≠ []) :
    runInference fs hist (r :: rest) =
      ((runInference (processToolCalls fs r.toolCalls).2
          (hist ++ [Msg.assistant r] ++ (processToolCalls fs r.toolCalls).1) rest).1,
        (runInference (processToolCalls fs r.toolCalls).2
          (hist ++ [Msg.assistant r] ++ (processToolCalls fs r.toolCalls).1) rest).2.1,
        (runInference (processToolCalls fs r.toolCalls).2
          (hist ++ [Msg.assistant r] ++ (processToolCalls fs r.toolCalls).1) rest).2.2 + 1) ∧
    (processToolCalls fs r.toolCalls).1 =
      List.zipWith (fun tc out => Msg.tool tc.id tc.name out)
        r.toolCalls (toolOutputs fs r.toolCalls) ∧
    (processToolCalls fs r.toolCalls).1.length = r.toolCalls.length := by
  have hie : r.toolCalls.isEmpty = false := by
    cases htc : r.toolCalls with
    | nil => exact absurd htc h
    | cons a l => rfl
  refine ⟨?_, processToolCalls_spec r.toolCalls fs, processToolCalls_length r.toolCalls fs⟩
  rw [runInference]
  simp [hie]

/-- C3 witness: a response with two tool requests over a one-file
workspace. -/
theorem toolResults_keyed_in_order_witness :
    (Response.mk none [ToolCall.mk "id1" "read_file" (ToolArgs.readFileArgs "f"),
      ToolCall.mk "id2" "list_files" (ToolArgs.listFilesArgs none)]).toolCalls ≠ [] ∧
    (runInference ⟨["w"], [(["w", "f"], "hi")], [["w"]]⟩ []
        (Response.mk none [ToolCall.mk "id1" "read_file" (ToolArgs.readFileArgs "f"),
          ToolCall.mk "id2" "list_files" (ToolArgs.listFilesArgs none)] ::
          [Response.mk (some "done") []]) =
      ((runInference
          (processToolCalls ⟨["w"], [(["w", "f"], "hi")], [["w"]]⟩
            (Response.mk none [ToolCall.mk "id1" "read_file" (ToolArgs.readFileArgs "f"),
              ToolCall.mk "id2" "list_files" (ToolArgs.listFilesArgs none)]).toolCalls).2
          ([] ++ [Msg.assistant (Response.mk none [ToolCall.mk "id1" "read_file" (ToolArgs.readFileArgs "f"),
              ToolCall.mk "id2" "list_files" (ToolArgs.listFilesArgs none)])] ++
            (processToolCalls ⟨["w"], [(["w", "f"], "hi")], [["w"]]⟩
              (Response.mk none [ToolCall.mk "id1" "read_file" (ToolArgs.readFileArgs "f"),
                ToolCall.mk "id2" "list_files" (ToolArgs.listFilesArgs none)]).toolCalls).1)
          [Response.mk (some "done") []]).1,
        (runInference
          (processToolCalls ⟨["w"], [(["w", "f"], "hi")], [["w"]]⟩
            (Response.mk none [ToolCall.mk "id1" "read_file" (ToolArgs.readFileArgs "f"),
              ToolCall.mk "id2" "list_files" (ToolArgs.listFilesArgs none)]).toolCalls).2
          ([] ++ [Msg.assistant (Response.mk none [ToolCall.mk "id1" "read_file" (ToolArgs.readFileArgs "f"),
              ToolCall.mk "id2" "list_files" (ToolArgs.listFilesArgs none)])] ++
            (processToolCalls ⟨["w"], [(["w", "f"], "hi")], [["w"]]⟩
              (Response.mk none [ToolCall.mk "id1" "read_file" (ToolArgs.readFileArgs "f"),
                ToolCall.mk "id2" "list_files" (ToolArgs.listFilesArgs none)]).toolCalls).1)
          [Response.mk (some "done") []]).2.1,
        (runInference
          (processToolCalls ⟨["w"], [(["w", "f"], "hi")], [["w"]]⟩
            (Response.mk none [ToolCall.mk "id1" "read_file" (ToolArgs.readFileArgs "f"),
              ToolCall.mk "id2" "list_files" (ToolArgs.listFilesArgs none)]).toolCalls).2
          ([] ++ [Msg.assistant (Response.mk none [ToolCall.mk "id1" "read_file" (ToolArgs.readFileArgs "f"),
              ToolCall.mk "id2" "list_files" (ToolArgs.listFilesArgs none)])] ++
            (processToolCalls ⟨["w"], [(["w", "f"], "hi")], [["w"]]⟩
              (Response.mk none [ToolCall.mk "id1" "read_file" (ToolArgs.readFileArgs "f"),
                ToolCall.mk "id2" "list_files" (ToolArgs.listFilesArgs none)]).toolCalls).1)
          [Response.mk (some "done") []]).2.2 + 1) ∧
      (processToolCalls ⟨["w"], [(["w", "f"], "hi")], [["w"]]⟩
          (Response.mk none [ToolCall.mk "id1" "read_file" (ToolArgs.readFileArgs "f"),
            ToolCall.mk "id2" "list_files" (ToolArgs.listFilesArgs none)]).toolCalls).1 =
        List.zipWith (fun tc out => Msg.tool tc.id tc.name out)
          (Response.mk none [ToolCall.mk "id1" "read_file" (ToolArgs.readFileArgs "f"),
            ToolCall.mk "id2" "list_files" (ToolArgs.listFilesArgs none)]).toolCalls
          (toolOutputs ⟨["w"], [(["w", "f"], "hi")], [["w"]]⟩
            (Response.mk none [ToolCall.mk "id1" "read_file" (ToolArgs.readFileArgs "f"),
              ToolCall.mk "id2" "list_files" (ToolArgs.listFilesArgs none)]).toolCalls) ∧
      (processToolCalls ⟨["w"], [(["w", "f"], "hi")], [["w"]]⟩
          (Response.mk none [ToolCall.mk "id1" "read_file" (ToolArgs.readFileArgs "f"),
            ToolCall.mk "id2" "list_files" (ToolArgs.listFilesArgs none)]).toolCalls).1.length =
        (Response.mk none [ToolCall.mk "id1" "read_file" (ToolArgs.readFileArgs "f"),
          ToolCall.mk "id2" "list_files" (ToolArgs.listFilesArgs none)]).toolCalls.length) :=
  ⟨by decide,
    toolResults_keyed_in_order ⟨["w"], [(["w", "f"], "hi")], [["w"]]⟩ []
      (Response.mk none [ToolCall.mk "id1" "read_file" (ToolArgs.readFileArgs "f"),
        ToolCall.mk "id2" "list_files" (ToolArgs.listFilesArgs none)])
      [Response.mk (some "done") []] (by decide)⟩

/-- C2 counterexample: a turn of 26 tool-call rounds — exceeding the
spec's suggested cap of 25 — is driven to completion: all 27 completion
calls are issued (a further call after every round) and the turn ends with
the final assistant text rather than any ToolLoopExceeded failure; the
code has no iteration cap at all. -/
theorem runInference_26_rounds_counterexample :
    toolRounds (List.replicate 26
        (Response.mk none [ToolCall.mk "id1" "read_file" (ToolArgs.readFileArgs "f")]) ++
      [Response.mk (some "done") []]) = 26 ∧
    25 < 26 ∧
    (runInference ⟨["w"], [(["w", "f"], "hi")], [["w"]]⟩ []
        (List.replicate 26
          (Response.mk none [ToolCall.mk "id1" "read_file" (ToolArgs.readFileArgs "f")]) ++
        [Response.mk (some "done") []])).2.2 = 27 ∧
    (runInference ⟨["w"], [(["w", "f"], "hi")], [["w"]]⟩ []
        (List.replicate 26
          (Response.mk none [ToolCall.mk "id1" "read_file" (ToolArgs.readFileArgs "f")]) ++
        [Response.mk (some "done") []])).1.getLast? =
      some (Msg.assistant (Response.mk (some "done") [])) := by
  refine ⟨rfl, by omega, rfl, rfl⟩

/-- C2 amended: the implementation imposes no cap on tool-call rounds and
has no ToolLoopExceeded failure: for every number `n` of consecutive
tool-carrying responses followed by a final text response, the turn issues
exactly `n + 1` completion calls and completes normally with that final
assistant text. -/
theorem runInference_no_cap (n : Nat) (fs : FS) (hist : List Msg) (tc : ToolCall)
    (txt : String) :
    (runInference fs hist (List.replicate n (Response.mk none [tc]) ++
        [Response.mk (some txt) []])).2.2 = n + 1 ∧
    (runInference fs hist (List.replicate n (Response.mk none [tc]) ++
        [Response.mk (some txt) []])).1.getLast? =
      some (Msg.assistant (Response.mk (some txt) [])) := by
  induction n generalizing fs hist with
  | zero => simp [runInference]
  | succ n ih =>
    rw [List.replicate_succ, List.cons_append, runInference]
    have hie : (Response.mk (none : Option String) [tc]).toolCalls.isEmpty = false := rfl
    simp only [hie, Bool.false_eq_true, if_false]
    obtain ⟨ih1, ih2⟩ := ih (processToolCalls fs [tc]).2
      ((hist ++ [Msg.assistant (Response.mk none [tc])]) ++ (processToolCalls fs [tc]).1)
    exact ⟨by rw [ih1], ih2⟩

end AgentSpec
